import Mathlib

/-!
Shallow embedding of the ts-assertion CodeChecker (src/src/index.ts).

External collaborators (the TypeScript compiler API, the filesystem, the
real compiler host) are passed in as function parameters: `readFile` stands
for fsSync.readFileSync (returning none where the real call throws),
`parse` stands for ts.createSourceFile followed by forEachChild over the
immediate (top-level) children, `tsCompile` stands for the checker run that
produces the pair (emitResult.diagnostics, ts.getPreEmitDiagnostics) for a
given synthetic unit text, and `flatten` stands for
ts.flattenDiagnosticMessageText applied with separator "\n\n" and indent 2.
Everything the repository itself computes is translated directly.
-/

/-- Single-quote character, used to build the error message templates of the
source verbatim. -/
def squote : String := String.singleton (Char.ofNat 39)

/-- A diagnostic produced by the external checker; the repository only ever
reads its messageText field. -/
structure Diagnostic where
  messageText : String
  deriving DecidableEq

/-- A top-level child node reported by the parser: whether
ts.isTypeAliasDeclaration holds, its declared name (node.name.text), and the
reported start/end offsets (node.pos includes leading trivia, node.end is the
exclusive end). -/
structure TSNode where
  isTypeAlias : Bool
  name : String
  pos : Nat
  endPos : Nat
  deriving DecidableEq

/-- A source file as the compiler host sees it; only the text matters there. -/
structure SourceFile where
  text : String
  deriving DecidableEq

/-- The capabilities of a compiler host that the virtual host overrides or
delegates; the real host is external and appears as a record of functions.
A JS function that returns nothing yields undefined, modelled as none. -/
structure CompilerHost where
  fileExists : String → Bool
  getSourceFile : String → Option SourceFile
  readFile : String → Option String

/-- createVirtualHost from src/src/index.ts: answers the sentinel filename
temp.ts from the in-memory source file and delegates other names to the real
host.  Note the source readFile branch for other names performs the call
realHost.readFile(filePath) but has no return statement, so the JS function
returns undefined there; faithfully, none. -/
def createVirtualHost (realHost : CompilerHost) (sourceFile : SourceFile) : CompilerHost :=
  { fileExists := fun filePath => filePath == "temp.ts" || realHost.fileExists filePath
    getSourceFile := fun sourceFilename =>
      if sourceFilename == "temp.ts" then some sourceFile
      else realHost.getSourceFile sourceFilename
    readFile := fun filePath =>
      if filePath == "temp.ts" then some sourceFile.text
      else none }

/-- JS Map.prototype.set: overwrite the value in place when the key exists,
otherwise append the new pair at the end. -/
def mapSet (m : List (String × String)) (k v : String) : List (String × String) :=
  if m.any (fun p => p.fst == k) then
    m.map (fun p => if p.fst == k then (k, v) else p)
  else m ++ [(k, v)]

/-- JS Map.prototype.get: the value at the first (hence unique) occurrence of
the key, undefined (none) when absent. -/
def mapGet (m : List (String × String)) (k : String) : Option String :=
  (m.find? (fun p => p.fst == k)).map Prod.snd

/-- Buffer.from(code).subarray(pos, end).toString: the span of the source text
between the reported offsets, half-open. -/
def sliceSpan (code : String) (pos endPos : Nat) : String :=
  String.mk ((code.data.drop pos).take (endPos - pos))

/-- The body of extractTypesAsStrings: keep the top-level children that are
type alias declarations (forEachChild does not recurse into nested scopes),
then for each one in document order set name ↦ exact source span into a fresh
table (the source first clears the map). -/
def extractedTable (code : String) (children : List TSNode) : List (String × String) :=
  (children.filter (fun nd => nd.isTypeAlias)).foldl
    (fun acc nd => mapSet acc nd.name (sliceSpan code nd.pos nd.endPos)) []

/-- The mutable instance state of a CodeChecker. -/
structure CodeChecker where
  _pathname : String
  _globalTypes : String
  _globalPaths : List String
  _types : List (String × String)
  _version : String
  code : String
  deriving DecidableEq

/-- extractTypesAsStrings: clear this._types and rebuild it from the parse of
the current code. -/
def CodeChecker.extractTypesAsStrings (parse : String → List TSNode)
    (st : CodeChecker) : CodeChecker :=
  { st with _types := extractedTable st.code (parse st.code) }

/-- Outcome of an operation that may throw while mutating the instance: the
thrown case carries the message and the instance state left behind (JS
exceptions do not roll back field assignments). -/
inductive InitResult where
  | ok : CodeChecker → InitResult
  | thrown : String → CodeChecker → InitResult
  deriving DecidableEq

/-- The message of the error thrown by fetchCode when readFileSync fails. -/
def fileReadError (pathname : String) : String :=
  "Cannot read file: " ++ squote ++ pathname ++ squote

/-- fetchCode: an empty pathname (JS falsy) resets code to the empty string;
otherwise read the file, storing the text on success and throwing the
file-read error on failure (this.code is only assigned on success). -/
def CodeChecker.fetchCode (readFile : String → Option String)
    (st : CodeChecker) : InitResult :=
  if st._pathname == "" then InitResult.ok { st with code := "" }
  else
    match readFile st._pathname with
    | some c => InitResult.ok { st with code := c }
    | none => InitResult.thrown (fileReadError st._pathname) st

/-- init: fetchCode then extractTypesAsStrings; a throw in fetchCode
propagates before extraction runs. -/
def CodeChecker.init (readFile : String → Option String)
    (parse : String → List TSNode) (st : CodeChecker) : InitResult :=
  match st.fetchCode readFile with
  | InitResult.thrown e s => InitResult.thrown e s
  | InitResult.ok s => InitResult.ok (s.extractTypesAsStrings parse)

/-- The pathname setter: assign this._pathname first, then run init. -/
def CodeChecker.setPathname (readFile : String → Option String)
    (parse : String → List TSNode) (st : CodeChecker) (pathname : String) : InitResult :=
  CodeChecker.init readFile parse { st with _pathname := pathname }

/-- restore(pathname?): this.pathname = pathname ?? this.pathname (which runs
init through the setter), then init once more. -/
def CodeChecker.restore (readFile : String → Option String)
    (parse : String → List TSNode) (st : CodeChecker) (pathname : Option String) : InitResult :=
  match st.setPathname readFile parse (pathname.getD st._pathname) with
  | InitResult.thrown e s => InitResult.thrown e s
  | InitResult.ok s => s.init readFile parse

/-- new Set of a list: deduplicate keeping first occurrences. -/
def setUnion (l : List String) : List String :=
  l.foldl (fun acc x => if acc.contains x then acc else acc ++ [x]) []

/-- The constructor: store the options (defaulting to empty), union the
instance global paths with the process-wide defaults, then init. -/
def mkCodeChecker (readFile : String → Option String)
    (parse : String → List TSNode) (defaultGlobalPaths : List String)
    (pathname globalTypes : String) (globalPaths : List String) : InitResult :=
  CodeChecker.init readFile parse
    { _pathname := pathname
      _globalTypes := globalTypes
      _globalPaths := setUnion (globalPaths ++ defaultGlobalPaths)
      _types := []
      _version := "es2022"
      code := "" }

/-- compileTypeScriptCode: the external program run yields
(emitResult.diagnostics, ts.getPreEmitDiagnostics program) for the unit
text, and the method returns emitResult.diagnostics.concat(diagnostics);
emission diagnostics come first in the concatenation. -/
def compileTypeScriptCode (tsCompile : String → List Diagnostic × List Diagnostic)
    (code : String) : List Diagnostic :=
  (tsCompile code).fst ++ (tsCompile code).snd

/-- JS truthiness of typeName / selectedType values: undefined and the empty
string are falsy. -/
def truthy : Option String → Bool
  | none => false
  | some s => !(s == "")

/-- selectedType = typeName && this.types.get(typeName): undefined stays
undefined, the empty string short-circuits to itself, otherwise the map
lookup (undefined when absent). -/
def CodeChecker.selectedType (st : CodeChecker) (typeName : Option String) : Option String :=
  match typeName with
  | none => none
  | some n => if n == "" then some "" else mapGet st._types n

/-- The message of the lookup error thrown when a requested type name is not
found. -/
def lookupError (typeName pathname : String) : String :=
  "Type " ++ squote ++ typeName ++ squote ++ " not found in file " ++ squote ++ pathname ++ squote

/-- The template literal building the synthetic unit: a nonempty globalTypes
is suffixed with a newline, an empty one contributes nothing, then the chosen
code, a newline, and the test snippet. -/
def unitText (globalTypes code testCode : String) : String :=
  (if globalTypes == "" then "" else globalTypes ++ "\n") ++ code ++ "\n" ++ testCode

/-- The synthetic unit compiled by a test call: code = selectedType ??
this.code (nullish coalescing, so an empty-string selectedType is kept). -/
def CodeChecker.compiledUnit (st : CodeChecker) (testCode : String)
    (typeName : Option String) : String :=
  unitText st._globalTypes ((st.selectedType typeName).getD st.code) testCode

/-- The Verdict of one test call. -/
structure Verdict where
  valid : Bool
  messages : List String
  deriving DecidableEq

/-- The private _test method: throw the lookup error when typeName is truthy
and selectedType falsy; otherwise compile the synthetic unit, flatten each
diagnostic message, and return valid = (messages list is empty). -/
def CodeChecker._test (tsCompile : String → List Diagnostic × List Diagnostic)
    (flatten : String → String) (st : CodeChecker)
    (testCode : String) (typeName : Option String) : Except String Verdict :=
  if truthy typeName && !(truthy (st.selectedType typeName)) then
    Except.error (lookupError (typeName.getD "") st._pathname)
  else
    let messages := (compileTypeScriptCode tsCompile (st.compiledUnit testCode typeName)).map
      (fun d => flatten d.messageText)
    Except.ok { valid := messages.isEmpty, messages := messages }

/-- test(testCode, typeName?): the valid flag of the _test Verdict. -/
def CodeChecker.test (tsCompile : String → List Diagnostic × List Diagnostic)
    (flatten : String → String) (st : CodeChecker)
    (testCode : String) (typeName : Option String) : Except String Bool :=
  (st._test tsCompile flatten testCode typeName).map Verdict.valid

/-- An error thrown by the assert closures: node assert throws the given
Error as-is (here the TypeError built by isValid) and wraps a string message
in an AssertionError (the isNotValid case). -/
inductive ThrownError where
  | typeError (message : String)
  | assertionError (message : String)
  deriving DecidableEq

/-- Array.prototype.filter(Boolean) over [...messages, msg]: drop undefined
and empty strings. -/
def filterBoolean (xs : List (Option String)) : List String :=
  xs.filterMap (fun x =>
    match x with
    | none => none
    | some s => if s == "" then none else some s)

/-- The state captured by the closures that assert returns. -/
structure AssertHandle where
  valid : Bool
  messages : List String
  testCode : String
  deriving DecidableEq

/-- isValid(msg?): assert(valid, new TypeError(join)) — throws the TypeError
carrying the filtered, newline-joined messages iff valid is false. -/
def AssertHandle.isValid (h : AssertHandle) (msg : Option String) : Option ThrownError :=
  if h.valid then none
  else some (ThrownError.typeError
    (String.intercalate "\n" (filterBoolean (h.messages.map some ++ [msg]))))

/-- The message of the isNotValid assertion error, including the optional
caller suffix (an empty caller message is falsy and adds nothing). -/
def notValidMessage (testCode : String) (msg : Option String) : String :=
  "Expected code " ++ squote ++ testCode ++ squote ++ " to be invalid" ++
    (match msg with
     | none => ""
     | some m => if m == "" then "" else "\n  - " ++ m)

/-- isNotValid(msg?): assert(!valid, message) — throws the assertion error
iff valid is true. -/
def AssertHandle.isNotValid (h : AssertHandle) (msg : Option String) : Option ThrownError :=
  if !h.valid then none
  else some (ThrownError.assertionError (notValidMessage h.testCode msg))

/-- assert(testCode, typeName?): run _test and capture valid, messages and
the snippet in the returned pair of closures. -/
def CodeChecker.assert (tsCompile : String → List Diagnostic × List Diagnostic)
    (flatten : String → String) (st : CodeChecker)
    (testCode : String) (typeName : Option String) : Except String AssertHandle :=
  (st._test tsCompile flatten testCode typeName).map
    (fun v => { valid := v.valid, messages := v.messages, testCode := testCode })

/-- Whether an Except result is a normal return. -/
def isOkB (r : Except String Verdict) : Bool :=
  match r with
  | Except.ok _ => true
  | Except.error _ => false

/-! Concrete fixtures used by witnesses and counterexamples. -/

/-- An external checker that reports no diagnostics at all. -/
def tsCompile0 : String → List Diagnostic × List Diagnostic := fun _ => ([], [])

/-- A flattener that returns the message text unchanged. -/
def flatten0 : String → String := fun s => s

/-- A checker instance with no reference file, as new CodeChecker() builds. -/
def checker0 : CodeChecker :=
  { _pathname := ""
    _globalTypes := ""
    _globalPaths := []
    _types := []
    _version := "es2022"
    code := "" }

/-- A sample diagnostic. -/
def diagA : Diagnostic := { messageText := "A" }

/-- Another sample diagnostic. -/
def diagB : Diagnostic := { messageText := "B" }

/-- An external checker reporting one emission diagnostic and one pre-emission
diagnostic for every unit. -/
def tsCompile1 : String → List Diagnostic × List Diagnostic := fun _ => ([diagA], [diagB])

/-- A real compiler host with content for every path. -/
def realHost1 : CompilerHost :=
  { fileExists := fun _ => true
    getSourceFile := fun p => some { text := "real " ++ p }
    readFile := fun p => some ("real " ++ p) }

/-- The in-memory synthetic source file. -/
def sourceFile1 : SourceFile := { text := "unit" }

/-- A checker whose reference text is the single letter A and whose global
declarations are empty. -/
def checkerC5 : CodeChecker := { checker0 with code := "A" }

/-- A checker with a nonempty global declarations text and one table entry. -/
def checkerC5w : CodeChecker :=
  { _pathname := "p"
    _globalTypes := "G"
    _globalPaths := []
    _types := [("T", "t")]
    _version := "es2022"
    code := "C" }

/-- A checker whose reference text is the single letter X. -/
def checkerC9 : CodeChecker := { checker0 with code := "X" }

/-- An external checker that accepts exactly the unit built from the full
reference text of checkerC9 and rejects every other unit. -/
def tsCompileC9 : String → List Diagnostic × List Diagnostic :=
  fun u => if u == "X" ++ "\n" ++ "t" then ([], []) else ([diagA], [])

/-- A parser that reports no top-level children for any text. -/
def parseW : String → List TSNode := fun _ => []

/-- A filesystem in which every path reads as the single letter x. -/
def readFileW : String → Option String := fun _ => some "x"

/-- A filesystem in which every read fails. -/
def readFileNone : String → Option String := fun _ => none

/-- A checker with residue: a stale pathname, table and reference text. -/
def checkerResid : CodeChecker :=
  { _pathname := "old"
    _globalTypes := "G"
    _globalPaths := []
    _types := [("Z", "z")]
    _version := "es2022"
    code := "zz" }

/-- The state reached from checker0 by re-pointing the path to p under
readFileW and parseW. -/
def checkerP : CodeChecker :=
  { _pathname := "p"
    _globalTypes := ""
    _globalPaths := []
    _types := []
    _version := "es2022"
    code := "x" }

/-- The state reached from checkerResid by re-pointing the path to p. -/
def checkerResidP : CodeChecker :=
  { _pathname := "p"
    _globalTypes := "G"
    _globalPaths := []
    _types := []
    _version := "es2022"
    code := "x" }

/-- The state reached from checkerResid by re-pointing the path to the empty
string. -/
def checkerResidE : CodeChecker :=
  { _pathname := ""
    _globalTypes := "G"
    _globalPaths := []
    _types := []
    _version := "es2022"
    code := "" }

/-- The handle captured by a successful assert call on checker0. -/
def handle0 : AssertHandle := { valid := true, messages := [], testCode := "x" }

theorem mapGet_mapSet (m : List (String × String)) (k v k' : String) :
    mapGet (mapSet m k v) k' = if k' = k then some v else mapGet m k' := by
  unfold mapSet mapGet
  by_cases hany : (m.any fun p => p.fst == k) = true
  · rw [if_pos hany, List.find?_map]
    have hcomp : ((fun p : String × String => p.fst == k') ∘
        fun p : String × String => if p.fst == k then (k, v) else p)
        = fun p : String × String => p.fst == k' := by
      funext p
      by_cases hp : p.fst = k
      · simp [Function.comp, hp]
      · simp [Function.comp, hp]
    rw [hcomp]
    by_cases hk : k' = k
    · subst hk
      rcases ha : m.find? (fun p => p.fst == k') with _ | p
      · exfalso
        rw [List.find?_eq_none] at ha
        rcases List.any_eq_true.mp hany with ⟨p, hm, hp⟩
        exact ha p hm hp
      · have hp := List.find?_some ha
        simp only [beq_iff_eq] at hp
        rw [ha]
        simp [Option.map, hp]
    · rw [if_neg hk]
      rcases ha : m.find? (fun p => p.fst == k') with _ | p
      · rw [ha]
        rfl
      · have hp := List.find?_some ha
        simp only [beq_iff_eq] at hp
        rw [ha]
        simp [Option.map, hp, hk]
  · rw [if_neg hany, List.find?_append]
    by_cases hk : k' = k
    · subst hk
      have hnone : m.find? (fun p => p.fst == k') = none := by
        rw [List.find?_eq_none]
        intro p hm hp
        exact hany (List.any_eq_true.mpr ⟨p, hm, hp⟩)
      simp [hnone, List.find?]
    · have hkk : (k == k') = false := by
        simp only [beq_eq_false_iff_ne]
        exact Ne.symm hk
      have hone : List.find? (fun p : String × String => p.fst == k') [(k, v)] = none := by
        simp [List.find?, hkk]
      rw [hone, if_neg hk, Option.or_none]

theorem extractedGet_foldl (code : String) (l : List TSNode) :
    ∀ (m : List (String × String)) (n : String),
      mapGet (l.foldl (fun acc nd => mapSet acc nd.name (sliceSpan code nd.pos nd.endPos)) m) n =
        match l.reverse.find? (fun nd => nd.name == n) with
        | some nd => some (sliceSpan code nd.pos nd.endPos)
        | none => mapGet m n := by
  induction l with
  | nil => intro m n; rfl
  | cons nd rest ih =>
    intro m n
    rw [List.foldl_cons, ih, List.reverse_cons, List.find?_append]
    rcases hf : rest.reverse.find? (fun x => x.name == n) with _ | x
    · rw [hf, Option.none_or, mapGet_mapSet]
      by_cases hn : n = nd.name
      · have : (nd.name == n) = true := by simp [hn]
        simp [List.find?, this, hn]
      · have : (nd.name == n) = false := by
          simp only [beq_eq_false_iff_ne]
          exact Ne.symm hn
        simp [List.find?, this, hn]
    · rw [hf]
      rfl

/-- Claim C4: extraction populates the type table with exactly the top-level
named type alias declarations among the parsed children (forEachChild does
not recurse), keyed by declared name with last-write-wins on duplicates, and
each value is the exact original source span sliced by the node's reported
start/end offsets (node.pos is the full start, so leading trivia is
included): a lookup returns the slice of the last alias child with that name
and nothing otherwise. -/
theorem C4_extraction (parse : String → List TSNode) (st : CodeChecker)
    (code : String) (children : List TSNode) (n : String) :
    (CodeChecker.extractTypesAsStrings parse st)._types
        = extractedTable st.code (parse st.code) ∧
    mapGet (extractedTable code children) n =
      ((children.filter (fun nd => nd.isTypeAlias)).reverse.find?
          (fun nd => nd.name == n)).map
        (fun nd => sliceSpan code nd.pos nd.endPos) := by
  refine ⟨rfl, ?_⟩
  unfold extractedTable
  rw [extractedGet_foldl]
  rcases h : (children.filter fun nd => nd.isTypeAlias).reverse.find?
      (fun nd => nd.name == n) with _ | x
  · rw [h]
    rfl
  · rw [h]
    rfl

/-- Claim C1: for every test call that completes without a usage error, the
Verdict valid flag is true iff the flattened diagnostic message list is
empty, and test returns exactly that flag. -/
theorem C1_valid_iff_no_messages (tsCompile : String → List Diagnostic × List Diagnostic)
    (flatten : String → String) (st : CodeChecker) (testCode : String)
    (typeName : Option String) (v : Verdict)
    (h : st._test tsCompile flatten testCode typeName = Except.ok v) :
    (v.valid = true ↔ v.messages = []) ∧
    st.test tsCompile flatten testCode typeName = Except.ok v.valid := by
  refine ⟨?_, ?_⟩
  · unfold CodeChecker._test at h
    split at h
    · exact absurd h (by simp)
    · injection h with h1
      rw [← h1]
      exact List.isEmpty_iff
  · unfold CodeChecker.test
    rw [h]
    rfl

/-- Claim C1 witness at a concrete call. -/
theorem C1_valid_iff_no_messages_witness :
    ((Verdict.mk true []).valid = true ↔ (Verdict.mk true []).messages = []) ∧
    checker0.test tsCompile0 flatten0 "x" none = Except.ok (Verdict.mk true []).valid :=
  C1_valid_iff_no_messages tsCompile0 flatten0 checker0 "x" none (Verdict.mk true []) rfl

/-- Claim C2 counterexample: with one emission diagnostic and one
pre-emission diagnostic, the returned sequence is not the pre-emission
diagnostics followed by the emission diagnostics. -/
theorem C2_counterexample :
    compileTypeScriptCode (fun _ => ([diagA], [diagB])) "u" ≠ [diagB] ++ [diagA] := by
  decide

/-- Claim C2 (amended): the Verdict message list of a completed test call is
the flattened emission diagnostics followed by the flattened pre-emission
diagnostics — emitResult.diagnostics.concat(preEmitDiagnostics), emission
first. -/
theorem C2_amended (tsCompile : String → List Diagnostic × List Diagnostic)
    (flatten : String → String) (st : CodeChecker) (testCode : String)
    (typeName : Option String) (v : Verdict)
    (h : st._test tsCompile flatten testCode typeName = Except.ok v) :
    v.messages =
      ((tsCompile (st.compiledUnit testCode typeName)).fst
        ++ (tsCompile (st.compiledUnit testCode typeName)).snd).map
        (fun d => flatten d.messageText) := by
  unfold CodeChecker._test at h
  split at h
  · exact absurd h (by simp)
  · injection h with h1
    rw [← h1]
    rfl

/-- Claim C2 amended witness at a concrete call. -/
theorem C2_amended_witness :
    (Verdict.mk false ["A", "B"]).messages =
      ((tsCompile1 (checker0.compiledUnit "x" none)).fst
        ++ (tsCompile1 (checker0.compiledUnit "x" none)).snd).map
        (fun d => flatten0 d.messageText) :=
  C2_amended tsCompile1 flatten0 checker0 "x" none (Verdict.mk false ["A", "B"]) rfl

/-- Claim C3 (code bug): for a non-sentinel filename, fileExists and
getSourceFile delegate to the real resolver, but readFile yields undefined
instead of the real resolver result because the source makes the delegated
call without returning it. -/
theorem C3_readFile_drops_result :
    (createVirtualHost realHost1 sourceFile1).fileExists "lib.es2022.d.ts"
        = realHost1.fileExists "lib.es2022.d.ts" ∧
    (createVirtualHost realHost1 sourceFile1).getSourceFile "lib.es2022.d.ts"
        = realHost1.getSourceFile "lib.es2022.d.ts" ∧
    realHost1.readFile "lib.es2022.d.ts" = some ("real " ++ "lib.es2022.d.ts") ∧
    (createVirtualHost realHost1 sourceFile1).readFile "lib.es2022.d.ts" = none ∧
    (createVirtualHost realHost1 sourceFile1).fileExists "temp.ts" = true ∧
    (createVirtualHost realHost1 sourceFile1).getSourceFile "temp.ts" = some sourceFile1 ∧
    (createVirtualHost realHost1 sourceFile1).readFile "temp.ts" = some sourceFile1.text :=
  ⟨rfl, rfl, rfl, rfl, rfl, rfl, rfl⟩

/-- Claim C5 counterexample: with an empty global declarations text the unit
has no leading newline, so it differs from global declarations text + newline
+ reference text + newline + snippet. -/
theorem C5_counterexample :
    checkerC5.compiledUnit "B" none
      ≠ checkerC5._globalTypes ++ "\n" ++ checkerC5.code ++ "\n" ++ "B" := by
  decide

/-- Claim C5 (amended): the synthetic unit is the global declarations text
followed by a newline only when that text is nonempty, then the selected type
text (when a type name was given and found) or the full reference text, a
newline, and the snippet. -/
theorem C5_amended (st : CodeChecker) (testCode n v : String)
    (hn : n ≠ "") (hv : mapGet st._types n = some v) :
    st.compiledUnit testCode (some n) =
      (if st._globalTypes == "" then "" else st._globalTypes ++ "\n")
        ++ v ++ "\n" ++ testCode ∧
    st.compiledUnit testCode none =
      (if st._globalTypes == "" then "" else st._globalTypes ++ "\n")
        ++ st.code ++ "\n" ++ testCode := by
  have hne : (n == "") = false := by
    simp only [beq_eq_false_iff_ne]
    exact hn
  constructor
  · simp [CodeChecker.compiledUnit, CodeChecker.selectedType, unitText, hne, hv]
  · simp [CodeChecker.compiledUnit, CodeChecker.selectedType, unitText]

/-- Claim C5 amended witness at a concrete call. -/
theorem C5_amended_witness :
    checkerC5w.compiledUnit "B" (some "T") =
      (if checkerC5w._globalTypes == "" then "" else checkerC5w._globalTypes ++ "\n")
        ++ "t" ++ "\n" ++ "B" ∧
    checkerC5w.compiledUnit "B" none =
      (if checkerC5w._globalTypes == "" then "" else checkerC5w._globalTypes ++ "\n")
        ++ checkerC5w.code ++ "\n" ++ "B" :=
  C5_amended checkerC5w "B" "T" "t" (by decide) rfl

/-- Claim C6: requesting a nonempty type name absent from the type table
makes _test, test and assert all throw the lookup error, whose message names
the missing type and the current reference path; no Verdict is produced, so
the error is never added to a message list and test does not return false. -/
theorem C6_missing_type_throws (tsCompile : String → List Diagnostic × List Diagnostic)
    (flatten : String → String) (st : CodeChecker) (testCode n : String)
    (hn : n ≠ "") (habs : mapGet st._types n = none) :
    st._test tsCompile flatten testCode (some n)
        = Except.error (lookupError n st._pathname) ∧
    st.test tsCompile flatten testCode (some n)
        = Except.error (lookupError n st._pathname) ∧
    st.assert tsCompile flatten testCode (some n)
        = Except.error (lookupError n st._pathname) ∧
    lookupError n st._pathname =
      "Type " ++ squote ++ n ++ squote ++ " not found in file "
        ++ squote ++ st._pathname ++ squote := by
  have hne : (n == "") = false := by
    simp only [beq_eq_false_iff_ne]
    exact hn
  have h1 : st._test tsCompile flatten testCode (some n)
      = Except.error (lookupError n st._pathname) := by
    unfold CodeChecker._test
    rw [if_pos]
    · rfl
    · simp [truthy, CodeChecker.selectedType, hne, habs]
  refine ⟨h1, ?_, ?_, rfl⟩
  · unfold CodeChecker.test
    rw [h1]
    rfl
  · unfold CodeChecker.assert
    rw [h1]
    rfl

/-- Claim C6 witness at a concrete call. -/
theorem C6_missing_type_throws_witness :
    checker0._test tsCompile0 flatten0 "x" (some "T")
        = Except.error (lookupError "T" checker0._pathname) ∧
    checker0.test tsCompile0 flatten0 "x" (some "T")
        = Except.error (lookupError "T" checker0._pathname) ∧
    checker0.assert tsCompile0 flatten0 "x" (some "T")
        = Except.error (lookupError "T" checker0._pathname) ∧
    lookupError "T" checker0._pathname =
      "Type " ++ squote ++ "T" ++ squote ++ " not found in file "
        ++ squote ++ checker0._pathname ++ squote :=
  C6_missing_type_throws tsCompile0 flatten0 checker0 "x" "T" (by decide) rfl

theorem init_ok_state (readFile : String → Option String) (parse : String → List TSNode)
    (st st' : CodeChecker) (h : CodeChecker.init readFile parse st = InitResult.ok st') :
    st'._types = extractedTable st'.code (parse st'.code) ∧
    st'.code = (if st._pathname == "" then "" else (readFile st._pathname).getD "") ∧
    st'._pathname = st._pathname := by
  unfold CodeChecker.init CodeChecker.fetchCode at h
  by_cases hp : (st._pathname == "") = true
  · rw [if_pos hp] at h
    injection h with h1
    rw [← h1]
    refine ⟨rfl, ?_, rfl⟩
    rw [if_pos hp]
    rfl
  · rw [if_neg hp] at h
    rcases hr : readFile st._pathname with _ | c
    · rw [hr] at h
      exact absurd h (by simp)
    · rw [hr] at h
      injection h with h1
      rw [← h1]
      refine ⟨rfl, ?_, rfl⟩
      rw [if_neg hp]
      rfl

/-- Claim C7: whenever the reference path is set — via the pathname setter,
via restore, or at construction — the type table is fully rebuilt from the
newly fetched reference text: the resulting table is the extraction of the
new code, two instances with arbitrary differing residue reach the same
table when re-pointed to the same path, and a re-point to the empty path
leaves an empty table (granting that parsing empty text yields no top-level
type alias children). -/
theorem C7_full_rebuild (readFile : String → Option String) (parse : String → List TSNode)
    (hparse : (parse "").filter (fun nd => nd.isTypeAlias) = [])
    (sta stb ste str : CodeChecker) (p : String) (pOpt : Option String)
    (dgp gp : List String) (pn gt : String)
    (sta' stb' ste' str' stm' : CodeChecker)
    (ha : CodeChecker.setPathname readFile parse sta p = InitResult.ok sta')
    (hb : CodeChecker.setPathname readFile parse stb p = InitResult.ok stb')
    (he : CodeChecker.setPathname readFile parse ste "" = InitResult.ok ste')
    (hrs : CodeChecker.restore readFile parse str pOpt = InitResult.ok str')
    (hm : mkCodeChecker readFile parse dgp pn gt gp = InitResult.ok stm') :
    sta'._types = extractedTable sta'.code (parse sta'.code) ∧
    stb'._types = sta'._types ∧
    ste'._types = [] ∧
    str'._types = extractedTable str'.code (parse str'.code) ∧
    stm'._types = extractedTable stm'.code (parse stm'.code) := by
  obtain ⟨ta, ca, _⟩ := init_ok_state readFile parse _ _ ha
  obtain ⟨tb, cb, _⟩ := init_ok_state readFile parse _ _ hb
  obtain ⟨te, ce, _⟩ := init_ok_state readFile parse _ _ he
  obtain ⟨tm, _, _⟩ := init_ok_state readFile parse _ _ hm
  have hcode : stb'.code = sta'.code := by rw [ca, cb]
  have hempty : ste'.code = "" := by
    rw [ce]
    rfl
  refine ⟨ta, ?_, ?_, ?_, tm⟩
  · rw [tb, hcode, ← ta]
  · rw [te, hempty]
    unfold extractedTable
    rw [hparse]
    rfl
  · unfold CodeChecker.restore at hrs
    rcases hsp : CodeChecker.setPathname readFile parse str (pOpt.getD str._pathname) with s | ⟨e, s⟩
    · rw [hsp] at hrs
      obtain ⟨tr, _, _⟩ := init_ok_state readFile parse _ _ hrs
      exact tr
    · rw [hsp] at hrs
      exact absurd hrs (by simp)

/-- Claim C7 witness at concrete calls, including an instance with residue. -/
theorem C7_full_rebuild_witness :
    checkerP._types = extractedTable checkerP.code (parseW checkerP.code) ∧
    checkerResidP._types = checkerP._types ∧
    checkerResidE._types = [] ∧
    checkerP._types = extractedTable checkerP.code (parseW checkerP.code) ∧
    checker0._types = extractedTable checker0.code (parseW checker0.code) :=
  C7_full_rebuild readFileW parseW rfl checker0 checkerResid checkerResid checker0
    "p" (some "p") [] [] "" "" checkerP checkerResidP checkerResidE checkerP checker0
    rfl rfl rfl rfl rfl

/-- Claim C8: for a completed assert call, isValid throws exactly when the
Verdict is invalid, and the thrown TypeError carries the newline-join of all
(nonempty) diagnostic messages plus the optional caller message; isNotValid
throws exactly when the Verdict is valid, with the expected-to-be-invalid
assertion message plus the optional caller message. -/
theorem C8_assert_closures (tsCompile : String → List Diagnostic × List Diagnostic)
    (flatten : String → String) (st : CodeChecker) (testCode : String)
    (typeName : Option String) (h : AssertHandle) (msg : Option String)
    (hok : st.assert tsCompile flatten testCode typeName = Except.ok h) :
    ((h.isValid msg).isSome ↔ h.valid = false) ∧
    (h.valid = false → h.isValid msg = some (ThrownError.typeError
      (String.intercalate "\n" (filterBoolean (h.messages.map some ++ [msg]))))) ∧
    ((h.isNotValid msg).isSome ↔ h.valid = true) ∧
    (h.valid = true → h.isNotValid msg = some (ThrownError.assertionError
      (notValidMessage testCode msg))) := by
  have hts : h.testCode = testCode := by
    unfold CodeChecker.assert at hok
    cases ht : st._test tsCompile flatten testCode typeName with
    | error e =>
      rw [ht] at hok
      exact absurd hok (by simp [Except.map])
    | ok v =>
      rw [ht] at hok
      simp only [Except.map] at hok
      injection hok with h1
      rw [← h1]
  cases hv : h.valid <;>
    simp [AssertHandle.isValid, AssertHandle.isNotValid, hv, hts]

/-- Claim C8 witness at a concrete call. -/
theorem C8_assert_closures_witness :
    ((handle0.isValid none).isSome ↔ handle0.valid = false) ∧
    (handle0.valid = false → handle0.isValid none = some (ThrownError.typeError
      (String.intercalate "\n" (filterBoolean (handle0.messages.map some ++ [none]))))) ∧
    ((handle0.isNotValid none).isSome ↔ handle0.valid = true) ∧
    (handle0.valid = true → handle0.isNotValid none = some (ThrownError.assertionError
      (notValidMessage "x" none))) :=
  C8_assert_closures tsCompile0 flatten0 checker0 "x" none handle0 none rfl

/-- Claim C9 counterexample: with a nonempty reference text, the empty-string
type name does not behave as if no type name were supplied — the synthetic
unit differs and a checker distinguishing the two units yields different test
results. -/
theorem C9_counterexample :
    checkerC9.compiledUnit "t" (some "") ≠ checkerC9.compiledUnit "t" none ∧
    checkerC9.test tsCompileC9 flatten0 "t" (some "") = Except.ok false ∧
    checkerC9.test tsCompileC9 flatten0 "t" none = Except.ok true := by
  refine ⟨by decide, rfl, rfl⟩

/-- Claim C9 (amended): for every call with an empty-string type name, no
lookup error is raised (the call completes normally), and the code portion of
the unit becomes the empty string rather than the full reference text
(selectedType short-circuits to the empty string, which the
nullish-coalescing keeps); the call behaves exactly as with no type name
precisely in the case where the reference text is empty. -/
theorem C9_amended (tsCompile : String → List Diagnostic × List Diagnostic)
    (flatten : String → String) (st : CodeChecker) (testCode : String) :
    isOkB (st._test tsCompile flatten testCode (some "")) = true ∧
    st.compiledUnit testCode (some "") = unitText st._globalTypes "" testCode ∧
    (st.code = "" →
      st._test tsCompile flatten testCode (some "")
        = st._test tsCompile flatten testCode none) := by
  refine ⟨?_, rfl, ?_⟩
  · unfold CodeChecker._test
    rw [if_neg (by simp [truthy])]
    rfl
  · intro hc
    unfold CodeChecker._test
    rw [if_neg (by simp [truthy]), if_neg (by simp [truthy])]
    simp [CodeChecker.compiledUnit, CodeChecker.selectedType, hc]

/-- Claim C9 amended witness at a concrete call, with the empty-reference
implication discharged. -/
theorem C9_amended_witness :
    isOkB (checkerC9._test tsCompileC9 flatten0 "t" (some "")) = true ∧
    checkerC9.compiledUnit "t" (some "") = unitText checkerC9._globalTypes "" "t" ∧
    (checker0.code = "" →
      checker0._test tsCompile0 flatten0 "t" (some "")
        = checker0._test tsCompile0 flatten0 "t" none) ∧
    checker0._test tsCompile0 flatten0 "t" (some "")
      = checker0._test tsCompile0 flatten0 "t" none :=
  ⟨(C9_amended tsCompileC9 flatten0 checkerC9 "t").1,
   (C9_amended tsCompileC9 flatten0 checkerC9 "t").2.1,
   (C9_amended tsCompile0 flatten0 checker0 "t").2.2,
   (C9_amended tsCompile0 flatten0 checker0 "t").2.2 rfl⟩

/-- Claim C10: setting the pathname to a nonempty path whose read fails
throws the file-read error naming that path, and leaves the instance with
the new pathname stored while the reference text and the type table keep
their previous contents, because extraction never runs. -/
theorem C10_setter_not_atomic (readFile : String → Option String)
    (parse : String → List TSNode) (st : CodeChecker) (p : String)
    (hp : p ≠ "") (hfail : readFile p = none) :
    CodeChecker.setPathname readFile parse st p =
      InitResult.thrown (fileReadError p) { st with _pathname := p } := by
  have hpb : (p == "") = false := by
    simp only [beq_eq_false_iff_ne]
    exact hp
  unfold CodeChecker.setPathname CodeChecker.init CodeChecker.fetchCode
  simp [hpb, hfail]

/-- Claim C10 witness at a concrete call on an instance with residue. -/
theorem C10_setter_not_atomic_witness :
    CodeChecker.setPathname readFileNone parseW checkerResid "p" =
      InitResult.thrown (fileReadError "p") { checkerResid with _pathname := "p" } :=
  C10_setter_not_atomic readFileNone parseW checkerResid "p" (by decide) rfl
